import Mathlib

/-!
Verification of the Email-Cleaner-Web-Client repository.

This file shallowly embeds the TypeScript source into Lean 4:
* `UnsubscribeDetector` (extractUnsubscribeInfo / checkHeaders /
  extractLinksFromHeader / parseEmailContent / isValidUnsubscribeLink /
  calculateConfidence / performUnsubscribe);
* the `SmartAIProvider` fallback chain (executeWithFallback /
  getNextAvailableProvider) and `LocalAIProvider.categorizeEmailSync`;
* `GmailService.detectNewsletter`;
* `EmailAnalyzer` (analyzeEmailData / analyzePatterns / analyzeSenders /
  analyzeTimePatterns / generateCleanupInsights / generateOrganizationInsights /
  generateProductivityInsights / generateSecurityInsights / calculateScores).

External libraries are abstracted at their call boundary:
* cheerio's selector engine is abstracted as an `EmailDoc` carrying the
  (href, text) pairs the unsubscribe selector scans return and the
  (innerHtml, action) pairs of the `<form>` elements, in scan order;
* axios / fetch network calls are abstracted as a function argument giving
  the response status (or a network error) per URL;
* `Date` parsing is abstracted by storing message dates as epoch
  milliseconds, and locale day / hour extraction as function arguments;
* JavaScript floating point arithmetic is modelled over `ℚ`; the two places
  whose branch behaviour depends on IEEE specials (`0/0 = NaN`,
  `x/0 = Infinity`) are modelled by the explicit case split they induce.

Numbers that the source renders with `toLocaleString` / `toFixed` are
rendered with plain decimal formatting helpers.
-/

namespace EmailCleaner

/-- JavaScript string truthiness for an optional string value
(`undefined` and `""` are falsy). -/
def jsTruthy : Option String → Bool
  | none => false
  | some s => !s.isEmpty

/-- JavaScript `a || b` on two optional string values. -/
def jsOr (a b : Option String) : Option String :=
  if jsTruthy a then a else b

/-- `pat` occurs as a contiguous run inside `cs`
(JavaScript `String.prototype.includes` on char lists). -/
def listIncludes (pat : List Char) : List Char → Bool
  | [] => pat.isEmpty
  | c :: rest => pat.isPrefixOf (c :: rest) || listIncludes pat rest

/-- JavaScript `s.includes(pat)`. -/
def strIncludes (s pat : String) : Bool :=
  listIncludes pat.toList s.toList

/-- JavaScript `s.startsWith(pre)`. -/
def strStartsWith (s pre : String) : Bool :=
  pre.toList.isPrefixOf s.toList

/-- JavaScript `s.toLowerCase()` (ASCII; the source only compares ASCII
keywords). -/
def strLower (s : String) : String :=
  String.mk (s.toList.map Char.toLower)

/-- Matcher loop for `countMatches`: after a match, `skip` characters
still belong to the matched occurrence and are consumed without a new
match attempt (non-overlapping global matching). -/
def countMatchesGo (pat : List Char) : Nat → List Char → Nat
  | _, [] => 0
  | 0, c :: rest =>
    if 0 < pat.length && pat.isPrefixOf (c :: rest) then
      1 + countMatchesGo pat (pat.length - 1) rest
    else
      countMatchesGo pat 0 rest
  | k + 1, _ :: rest => countMatchesGo pat k rest

/-- Number of non-overlapping, left-to-right matches of `pat` in `cs`
(JavaScript `s.match(/pat/g).length` for a literal pattern). -/
def countMatches (pat : List Char) (cs : List Char) : Nat :=
  countMatchesGo pat 0 cs

/-- Insertion loop of a JavaScript `Set`: keep an element unless an equal
one was already seen. -/
def dedupSeen (seen : List String) : List String → List String
  | [] => []
  | a :: l =>
    if seen.contains a then dedupSeen seen l
    else a :: dedupSeen (a :: seen) l

/-- First-occurrence deduplication, the order produced by
JavaScript `[...new Set(links)]`. -/
def dedupFirst (l : List String) : List String :=
  dedupSeen [] l

/-! ## UnsubscribeDetector (unsubscribe detection module) -/

/-- The `method` tag of `UnsubscribeInfo`. -/
inductive UMethod where
  | link | email | header | form
deriving DecidableEq, Repr

/-- `UnsubscribeInfo` — result of unsubscribe detection. -/
structure UnsubscribeInfo where
  found : Bool
  links : List String
  method : UMethod
  confidence : ℚ
deriving DecidableEq, Repr

/-- Header maps are association lists with JavaScript-object lookup
(keys are unique; first match wins). -/
def lookupHeader (hs : List (String × String)) (k : String) : Option String :=
  (hs.find? (fun p => p.1 == k)).map Prod.snd

/-- Scanner for the bracket tokens of a header value: outside a bracket
(`none`) look for `<`; inside (`some acc`, collected chars reversed) close
at `>`, emitting the token when non-empty (the regex needs `[^>]+`). An
unterminated bracket at the end of input emits nothing. -/
def bracketScan : Option (List Char) → List Char → List String
  | _, [] => []
  | none, c :: rest =>
    if c = '<' then bracketScan (some []) rest else bracketScan none rest
  | some acc, c :: rest =>
    if c = '>' then
      if acc.isEmpty then bracketScan none rest
      else String.mk acc.reverse :: bracketScan none rest
    else bracketScan (some (c :: acc)) rest

/-- The non-overlapping `<...>` bracket tokens of a header value, the
matches of the global regex `/<([^>]+)>/g` with the brackets stripped. -/
def bracketTokens (cs : List Char) : List String :=
  bracketScan none cs

/-- `extractLinksFromHeader`: bracket tokens that start with `http` or
`mailto:`, in order. -/
def extractLinksFromHeader (headerValue : String) : List String :=
  (bracketTokens headerValue.toList).filter
    (fun url => strStartsWith url "http" || strStartsWith url "mailto:")

/-- `checkHeaders`: read `list-unsubscribe` / `List-Unsubscribe` (JavaScript
`||` on the two lookups, empty string falsy) and, when truthy, return the
bracket-token links with `method = header`, `confidence = 0.9`,
`found = links.length > 0`. -/
def checkHeaders (headers : Option (List (String × String))) : UnsubscribeInfo :=
  match headers with
  | none => ⟨false, [], .header, 0⟩
  | some hs =>
    let listUnsubscribe :=
      jsOr (lookupHeader hs "list-unsubscribe") (lookupHeader hs "List-Unsubscribe")
    if jsTruthy listUnsubscribe then
      let links := extractLinksFromHeader (listUnsubscribe.getD "")
      ⟨!links.isEmpty, links, .header, 9/10⟩
    else
      ⟨false, [], .header, 0⟩

/-- An anchor element produced by the unsubscribe selector scans:
its `href` attribute (`none` when absent) and its lowercased text
(the source lowercases `$(element).text()` before use). -/
structure AnchorHit where
  href : Option String
  text : String
deriving DecidableEq, Repr

/-- A `<form>` element: its inner HTML and its `action` attribute. -/
structure FormHit where
  html : String
  action : Option String
deriving DecidableEq, Repr

/-- The cheerio view of an email body: the raw body string, the anchors
returned by the eleven unsubscribe selectors (concatenated in scan order),
and the `<form>` elements of the document. -/
structure EmailDoc where
  body : String
  anchors : List AnchorHit
  forms : List FormHit
deriving DecidableEq, Repr

/-- `isValidUnsubscribeLink`: reject empty / `#` / `javascript:` hrefs,
require an `http` or `mailto:` prefix, and require an unsubscribe keyword
in the lowercased href or the anchor text. -/
def isValidUnsubscribeLink (href : String) (text : String) : Bool :=
  if href.isEmpty || href = "#" || strStartsWith href "javascript:" then
    false
  else if !strStartsWith href "http" && !strStartsWith href "mailto:" then
    false
  else
    let unsubscribeKeywords :=
      ["unsubscribe", "optout", "opt-out", "remove", "stop",
       "email-preferences", "preferences"]
    let linkText := strLower href ++ " " ++ text
    unsubscribeKeywords.any (fun keyword => strIncludes linkText keyword)

/-- `calculateConfidence`: base 0.5, plus `min(0.1 · unsubscribeCount, 0.3)`
for mentions of "unsubscribe" in the lowercased body, plus 0.2 times the
fraction of the links that start with `https:`, capped at 1. -/
def calculateConfidence (links : List String) (emailBody : String) : ℚ :=
  if links.isEmpty then 0
  else
    let unsubscribeCount : ℚ :=
      countMatches "unsubscribe".toList (strLower emailBody).toList
    let httpsLinks : ℚ := (links.filter (fun link => strStartsWith link "https:")).length
    min (1/2 + min (unsubscribeCount * (1/10)) (3/10)
          + (httpsLinks / (links.length : ℚ)) * (1/5)) 1

/-- The push of one scanned anchor: keep a truthy `href` that passes
`isValidUnsubscribeLink` against the anchor's lowercased text. -/
def anchorLink (a : AnchorHit) : Option String :=
  match a.href with
  | none => none
  | some href =>
    if !href.isEmpty && isValidUnsubscribeLink href a.text then some href
    else none

/-- The `$('form').filter(...)` predicate: the form's inner HTML, lowercased,
mentions "unsubscribe" or "opt out". -/
def formMatchesUnsubscribe (f : FormHit) : Bool :=
  let formHtml := strLower f.html
  strIncludes formHtml "unsubscribe" || strIncludes formHtml "opt out"

/-- `parseEmailContent`: guard on the empty body, collect the valid anchor
hrefs, append the `action` of every form whose inner HTML mentions
"unsubscribe" or "opt out" (when any such form exists), deduplicate, and
score. `method` is `form` when a matching form exists, else `link`. -/
def parseEmailContent (doc : EmailDoc) : UnsubscribeInfo :=
  if doc.body.isEmpty then ⟨false, [], .link, 0⟩
  else
    let anchorLinks := doc.anchors.filterMap anchorLink
    let matchingForms := doc.forms.filter formMatchesUnsubscribe
    let links :=
      if !matchingForms.isEmpty then
        anchorLinks ++ matchingForms.filterMap (fun f =>
          if jsTruthy f.action then f.action else none)
      else anchorLinks
    let uniqueLinks := dedupFirst links
    ⟨!uniqueLinks.isEmpty, uniqueLinks,
     if !matchingForms.isEmpty then .form else .link,
     calculateConfidence uniqueLinks doc.body⟩

/-- `extractUnsubscribeInfo`: headers first (most reliable), then the email
content, then the not-found default. -/
def extractUnsubscribeInfo (doc : EmailDoc)
    (headers : Option (List (String × String))) : UnsubscribeInfo :=
  let headerInfo := checkHeaders headers
  if headerInfo.found then headerInfo
  else
    let contentInfo := parseEmailContent doc
    if contentInfo.found then contentInfo
    else ⟨false, [], .link, 0⟩

/-- Result type of `performUnsubscribe`. -/
structure UnsubResult where
  success : Bool
  message : String
deriving DecidableEq, Repr

/-- `performUnsubscribe`. The axios GET is abstracted as `http`, mapping a
URL to `Except.error` (network failure, caught by the `try`) or `Except.ok`
of the response status (`validateStatus: () => true` accepts every status).
-/
def performUnsubscribe (http : String → Except String Nat)
    (info : UnsubscribeInfo) : UnsubResult :=
  if !info.found || info.links.isEmpty then
    ⟨false, "No unsubscribe method found"⟩
  else
    let link := info.links.headD ""
    if strStartsWith link "mailto:" then
      ⟨false, "Email-based unsubscribe requires manual action: " ++ link⟩
    else
      match http link with
      | .ok status =>
        if 200 ≤ status && status < 400 then
          ⟨true, "Successfully unsubscribed"⟩
        else
          ⟨false, "Unsubscribe request returned status " ++ toString status⟩
      | .error _ =>
        ⟨false, "Failed to process unsubscribe request"⟩

/-! ## SmartAIProvider fallback chain -/

/-- The three `AIProvider` interface methods dispatched through
`executeWithFallback`. -/
inductive AIMethod where
  | generateInsights | summarizeEmails | categorizeEmail
deriving DecidableEq, Repr

/-- The method name interpolated into the final error message. -/
def AIMethod.jsName : AIMethod → String
  | .generateInsights => "generateInsights"
  | .summarizeEmails => "summarizeEmails"
  | .categorizeEmail => "categorizeEmail"

/-- An `AIProvider`: name, `isAvailable()`, and the behaviour of a method
call on an argument of type `α` (`Except.error` models a thrown error with
its message, `Except.ok` a resolved string). -/
structure Provider (α : Type) where
  name : String
  available : Bool
  run : AIMethod → α → Except String String

/-- The mutable state of a `SmartAIProvider`: the provider chain and the
index of `currentProvider` (`none` for `null`; object identity is modelled
by position, matching `providers.indexOf`). -/
structure SmartState (α : Type) where
  providers : List (Provider α)
  current : Option Nat

/-- Index (counted from `base`) of the first available provider in a
suffix of the chain. -/
def findAvailIdx : List (Provider α) → Nat → Option Nat
  | [], _ => none
  | p :: ps, base => if p.available then some base else findAvailIdx ps (base + 1)

/-- Index of the first provider with the given name (`providers.find`
combined with the positional identity of the result). -/
def findNameIdx (nm : String) : List (Provider α) → Nat → Option Nat
  | [], _ => none
  | p :: ps, base => if p.name == nm then some base else findNameIdx nm ps (base + 1)

/-- `getNextAvailableProvider(skipCurrent)`: scan from
`indexOf(current) + 1` when skipping (0 when `current` is null), else from
0, for the first provider whose `isAvailable()` holds. -/
def getNextAvailableProvider (ps : List (Provider α)) (skipCurrent : Bool)
    (current : Option Nat) : Option Nat :=
  let startIndex :=
    match skipCurrent, current with
    | true, some i => i + 1
    | _, _ => 0
  findAvailIdx (ps.drop startIndex) startIndex

/-- The state a fresh `SmartAIProvider` is constructed in:
`currentProvider = getNextAvailableProvider()`. -/
def initSmartState (ps : List (Provider α)) : SmartState α :=
  ⟨ps, getNextAvailableProvider ps false none⟩

/-- The error thrown when every provider failed:
`All AI providers failed for ${method}: ${lastError?.message}`. -/
def allFailedMsg (m : AIMethod) (lastError : Option String) : String :=
  "All AI providers failed for " ++ m.jsName ++ ": " ++ lastError.getD "undefined"

/-- Last stage of `executeWithFallback`: the ultimate Local AI fallback.
`providers.find(p => p.name === 'Local AI')` is tried when it is not the
(identity-)current provider; `currentProvider` is set to it before the
call and is left there even when that call also fails. -/
def executeLocalFallback (m : AIMethod) (x : α) (ps : List (Provider α))
    (current : Option Nat) (lastError : Option String) :
    Except String String × SmartState α :=
  match findNameIdx "Local AI" ps 0 with
  | some j =>
    if current ≠ some j then
      match ps.get? j with
      | some p =>
        match p.run m x with
        | .ok r => (.ok r, ⟨ps, some j⟩)
        | .error _ => (.error (allFailedMsg m lastError), ⟨ps, some j⟩)
      | none => (.error (allFailedMsg m lastError), ⟨ps, current⟩)
    else
      (.error (allFailedMsg m lastError), ⟨ps, current⟩)
  | none => (.error (allFailedMsg m lastError), ⟨ps, current⟩)

/-- Middle stage of `executeWithFallback`: switch to
`getNextAvailableProvider(true)` and retry once; on failure fall through to
the Local AI stage with `currentProvider` already moved to the fallback. -/
def executeFallbackProvider (m : AIMethod) (x : α) (ps : List (Provider α))
    (current : Option Nat) (lastError : Option String) :
    Except String String × SmartState α :=
  match getNextAvailableProvider ps true current with
  | some j =>
    match ps.get? j with
    | some p =>
      match p.run m x with
      | .ok r => (.ok r, ⟨ps, some j⟩)
      | .error e => executeLocalFallback m x ps (some j) (some e)
    | none => executeLocalFallback m x ps current lastError
  | none => executeLocalFallback m x ps current lastError

/-- `executeWithFallback`: try `currentProvider`, then the next available
provider, then the Local AI provider; return the first resolved result
(with the state's `currentProvider` updated to the provider that served
it) or the aggregated error. -/
def executeWithFallback (m : AIMethod) (x : α) (st : SmartState α) :
    Except String String × SmartState α :=
  match st.current with
  | some i =>
    match st.providers.get? i with
    | some p =>
      match p.run m x with
      | .ok r => (.ok r, st)
      | .error e => executeFallbackProvider m x st.providers st.current (some e)
    | none => executeFallbackProvider m x st.providers st.current none
  | none => executeFallbackProvider m x st.providers st.current none

/-! ## Classification rule tables -/

/-- The email shape consumed by `LocalAIProvider.categorizeEmailSync`
(`subject` / `from` / `snippet` may be `undefined`; `listUnsubscribe` is
tested for truthiness). `fromAddr` embeds the `from` field, whose name is
reserved in Lean. -/
structure AIEmail where
  subject : Option String
  fromAddr : Option String
  snippet : Option String
  listUnsubscribe : Option String
deriving DecidableEq, Repr

/-- `LocalAIProvider.categorizeEmailSync`: the local rule-based
classifier. -/
def categorizeEmailSync (email : AIEmail) : String :=
  let subject := strLower (email.subject.getD "")
  let fromA := strLower (email.fromAddr.getD "")
  let snippet := strLower (email.snippet.getD "")
  let text := subject ++ " " ++ fromA ++ " " ++ snippet
  if strIncludes fromA "newsletter" || strIncludes fromA "noreply" ||
      strIncludes fromA "no-reply" || strIncludes subject "newsletter" ||
      strIncludes subject "digest" || jsTruthy email.listUnsubscribe then
    "newsletter"
  else if strIncludes text "sale" || strIncludes text "offer" ||
      strIncludes text "discount" || strIncludes text "promo" ||
      strIncludes text "%" || strIncludes text "deal" then
    "promotional"
  else if strIncludes fromA "slack" || strIncludes fromA "jira" ||
      strIncludes fromA "github" || strIncludes fromA "confluence" ||
      strIncludes subject "meeting" || strIncludes subject "deadline" ||
      strIncludes subject "project" then
    "work"
  else if strIncludes fromA "facebook" || strIncludes fromA "twitter" ||
      strIncludes fromA "linkedin" || strIncludes fromA "instagram" ||
      strIncludes fromA "youtube" || strIncludes fromA "tiktok" then
    "social"
  else if strIncludes subject "receipt" || strIncludes subject "order" ||
      strIncludes subject "payment" || strIncludes subject "invoice" ||
      strIncludes subject "confirmation" || strIncludes subject "shipping" then
    "transactional"
  else if !strIncludes fromA "noreply" && !strIncludes fromA "no-reply" &&
      !strIncludes text "unsubscribe" && text.length < 200 then
    "personal"
  else
    "other"

/-- The fixed newsletter indicator terms of
`GmailService.detectNewsletter`. -/
def newsletterIndicators : List String :=
  ["newsletter", "noreply", "no-reply", "donotreply", "marketing", "promo",
   "unsubscribe", "digest", "weekly", "monthly", "updates"]

/-- `GmailService.detectNewsletter`: indicator term in
`${subject} ${from}`.toLowerCase(), or a truthy `List-Unsubscribe` /
`Unsubscribe` header. -/
def detectNewsletter (subject fromA : String)
    (listUnsubscribe unsubscribe : Option String) : Bool :=
  let text := strLower (subject ++ " " ++ fromA)
  let hasIndicators := newsletterIndicators.any (fun ind => strIncludes text ind)
  let hasUnsubscribeHeader := jsTruthy listUnsubscribe || jsTruthy unsubscribe
  hasIndicators || hasUnsubscribeHeader

/-! ## EmailAnalyzer data model -/

/-- The `EmailMessage` interface. `date` is kept as epoch milliseconds
(string-to-`Date` parsing abstracted); the optional `isNewsletter` is kept
as the `Bool` its truthiness tests reduce to. `fromAddr` / `toAddr` embed
the `from` / `to` fields, whose names are reserved in Lean. -/
structure EmailMessage where
  id : String
  threadId : String
  subject : String
  fromAddr : String
  toAddr : String
  date : Int
  snippet : String
  unread : Bool
  labels : List String
  size : Nat
  isNewsletter : Bool
  unsubscribeLink : Option String
  listUnsubscribe : Option String
deriving DecidableEq, Repr

/-- The `EmailStats` interface (Gmail result-size estimates and counts). -/
structure EmailStats where
  totalEmails : Nat
  unreadEmails : Nat
  newsletters : Nat
  oldNewsletters : Nat
  storageUsed : Nat
deriving DecidableEq, Repr

/-- `EmailInsight.type`. -/
inductive InsightType where
  | recommendation | warning | info | success
deriving DecidableEq, Repr

/-- `EmailInsight.priority`. -/
inductive InsightPriority where
  | high | medium | low
deriving DecidableEq, Repr

/-- `EmailInsight.category`. -/
inductive InsightCategory where
  | cleanup | organization | security | productivity
deriving DecidableEq, Repr

/-- An insight's optional action. The `params` object is rendered as plain
`key: value` text (it is only carried along, never inspected). -/
structure InsightAction where
  label : String
  endpoint : String
  params : Option String
deriving DecidableEq, Repr

/-- The `EmailInsight` record. -/
structure EmailInsight where
  type : InsightType
  title : String
  description : String
  action : Option InsightAction
  priority : InsightPriority
  category : InsightCategory
deriving DecidableEq, Repr

/-- `storageImpact` of `analyzePatterns`. -/
structure StorageImpact where
  largeEmails : Nat
  oldEmails : Nat
  duplicates : Nat
deriving DecidableEq, Repr

/-- The record returned by `analyzePatterns`. -/
structure Patterns where
  newsletters : Nat
  unreadNewsletters : Nat
  oldEmails : Nat
  unsubscribeOpportunities : Nat
  storageImpact : StorageImpact
deriving DecidableEq, Repr

/-- An entry of `topSenders`. -/
structure TopSender where
  email : String
  count : Nat
  unreadCount : Nat
deriving DecidableEq, Repr

/-- The `score` record; `Math.round` yields integers. -/
structure Scores where
  cleanliness : ℤ
  organization : ℤ
  productivity : ℤ
deriving DecidableEq, Repr

/-- The `stats` record of an `EmailAnalysis`. Day-of-week and time-of-day
histograms are kept as the key order JavaScript iterates them in. -/
structure AnalysisStats where
  topSenders : List TopSender
  emailsByDayOfWeek : List (String × Nat)
  emailsByTimeOfDay : List (Nat × Nat)
  unsubscribeOpportunities : Nat
  storageImpact : StorageImpact
deriving DecidableEq, Repr

/-- The `EmailAnalysis` record returned by `analyzeEmailData`. -/
structure EmailAnalysis where
  insights : List EmailInsight
  stats : AnalysisStats
  score : Scores
deriving DecidableEq, Repr

/-! ## EmailAnalyzer helpers -/

/-- `analyzePatterns`. `thirtyDaysAgo` is the computed cutoff timestamp
(`new Date()` minus 30 days); an email is old when its date is strictly
before it. Duplicates are counted as `emailKeys.length - Set(emailKeys).size`
over `from.toLowerCase() + ":" + subject.toLowerCase()` keys. -/
def analyzePatterns (thirtyDaysAgo : Int) (emails : List EmailMessage) : Patterns :=
  let newsletters := emails.filter (fun e => e.isNewsletter)
  let unreadNewsletters := newsletters.filter (fun e => e.unread)
  let oldEmails := emails.filter (fun e => e.date < thirtyDaysAgo)
  let largeEmails := emails.filter (fun e => 5000000 < e.size)
  let emailKeys := emails.map (fun e => strLower e.fromAddr ++ ":" ++ strLower e.subject)
  let duplicates := emailKeys.length - (dedupFirst emailKeys).length
  { newsletters := newsletters.length
    unreadNewsletters := unreadNewsletters.length
    oldEmails := oldEmails.length
    unsubscribeOpportunities := (newsletters.filter (fun e =>
      jsTruthy e.unsubscribeLink || jsTruthy e.listUnsubscribe)).length
    storageImpact :=
      { largeEmails := largeEmails.length
        oldEmails := oldEmails.length
        duplicates := duplicates } }

/-- One step of the `senderCounts` accumulation of `analyzeSenders`
(JavaScript object keys keep first-insertion order). -/
def addSender (acc : List (String × Nat × Nat)) (e : EmailMessage) :
    List (String × Nat × Nat) :=
  let sender := strLower e.fromAddr
  let bump : Nat := if e.unread then 1 else 0
  if acc.any (fun p => p.1 == sender) then
    acc.map (fun p =>
      if p.1 == sender then (p.1, p.2.1 + 1, p.2.2 + bump) else p)
  else
    acc ++ [(sender, 1, bump)]

/-- `analyzeSenders`: per-sender totals in first-seen order, then the top
ten by total count (stable descending sort, matching the JavaScript
comparator `b.count - a.count`). -/
def analyzeSenders (emails : List EmailMessage) : List TopSender :=
  let senderCounts := emails.foldl addSender []
  let mapped := senderCounts.map (fun p =>
    ({ email := p.1, count := p.2.1, unreadCount := p.2.2 } : TopSender))
  (mapped.mergeSort (fun a b => b.count ≤ a.count)).take 10

/-- The fixed weekday key order of `analyzeTimePatterns`. -/
def dayKeys : List String :=
  ["Monday", "Tuesday", "Wednesday", "Thursday", "Friday", "Saturday", "Sunday"]

/-- `analyzeTimePatterns`. Locale day-name and hour extraction from a date
are abstracted as `dayOf` / `hourOf`; the histograms list the keys in the
iteration order of the initialised JavaScript objects. -/
def analyzeTimePatterns (dayOf : Int → String) (hourOf : Int → Nat)
    (emails : List EmailMessage) : List (String × Nat) × List (Nat × Nat) :=
  let dayOfWeek := dayKeys.map (fun d =>
    (d, (emails.filter (fun e => dayOf e.date == d)).length))
  let timeOfDay := (List.range 24).map (fun h =>
    (h, (emails.filter (fun e => hourOf e.date == h)).length))
  (dayOfWeek, timeOfDay)

/-- The high-priority unread-count cleanup insight
(`toLocaleString` rendered as plain decimal). -/
def highUnreadInsight (unreadEmails : Nat) : EmailInsight :=
  { type := .warning
    title := "High Unread Email Count"
    description := "You have " ++ toString unreadEmails ++
      " unread emails. Consider bulk actions to clean up."
    action := some
      { label := "Mark Old Emails as Read"
        endpoint := "/api/gmail/bulk-action"
        params := some "action: mark_read, daysOld: 30" }
    priority := .high
    category := .cleanup }

/-- The unread-newsletter cleanup insight. -/
def unreadNewsletterInsight (unreadNewsletters : Nat) : EmailInsight :=
  { type := .recommendation
    title := "Unread Newsletter Cleanup"
    description := "You have " ++ toString unreadNewsletters ++
      " unread newsletters. Time for a cleanup?"
    action := some
      { label := "Bulk Unsubscribe"
        endpoint := "/api/gmail/unsubscribe"
        params := some "type: old_newsletters" }
    priority := .high
    category := .cleanup }

/-- The storage-optimisation cleanup insight. -/
def storageInsight (largeEmails : Nat) : EmailInsight :=
  { type := .info
    title := "Storage Optimization Available"
    description := toString largeEmails ++
      " large emails found. Consider archiving or deleting old large emails."
    action := some
      { label := "Find Large Emails"
        endpoint := "/api/gmail/emails"
        params := some "q: larger:10M older_than:6m" }
    priority := .medium
    category := .cleanup }

/-- `generateCleanupInsights`: the three threshold-gated cleanup insights,
in push order. -/
def generateCleanupInsights (thirtyDaysAgo : Int) (emails : List EmailMessage)
    (stats : EmailStats) : List EmailInsight :=
  let patterns := analyzePatterns thirtyDaysAgo emails
  (if 1000 < stats.unreadEmails then [highUnreadInsight stats.unreadEmails] else []) ++
  (if 50 < patterns.unreadNewsletters then
    [unreadNewsletterInsight patterns.unreadNewsletters] else []) ++
  (if 20 < patterns.storageImpact.largeEmails then
    [storageInsight patterns.storageImpact.largeEmails] else [])

/-- `generateOrganizationInsights`: frequent-sender and duplicate
insights. -/
def generateOrganizationInsights (topSenders : List TopSender)
    (patterns : Patterns) : List EmailInsight :=
  (match topSenders.head? with
   | some topSender =>
     if 50 < topSender.count && 20 < topSender.unreadCount then
       [{ type := .recommendation
          title := "Frequent Sender Cleanup"
          description := topSender.email ++ " has sent you " ++
            toString topSender.count ++ " emails with " ++
            toString topSender.unreadCount ++
            " unread. Consider creating a filter or unsubscribing."
          action := some
            { label := "Review Sender"
              endpoint := "/api/gmail/emails"
              params := some ("q: from:" ++ topSender.email) }
          priority := .medium
          category := .organization }]
     else []
   | none => []) ++
  (if 10 < patterns.storageImpact.duplicates then
    [{ type := .info
       title := "Duplicate Emails Detected"
       description := "Found approximately " ++
         toString patterns.storageImpact.duplicates ++
         " potential duplicate emails."
       action := none
       priority := .low
       category := .organization }]
    else [])

/-- The peak entry of the time-of-day histogram: the JavaScript
`entries.reduce((a, b) => a.count > b.count ? a : b)` (keeps the later
entry on ties, `none` on an empty list where `reduce` would throw). -/
def peakEntry : List (Nat × Nat) → Option (Nat × Nat)
  | [] => none
  | h :: t => some (t.foldl (fun a b => if b.2 < a.2 then a else b) h)

/-- The `12 AM` / `h AM` / `h-12 PM` rendering of a peak hour. -/
def timeStrOfHour (hour : Nat) : String :=
  if hour = 0 then "12 AM"
  else if hour ≤ 12 then toString hour ++ " AM"
  else toString (hour - 12) ++ " PM"

/-- Decimal rendering with one fractional digit for a nonnegative exact
multiple of 1/10 (the only values `toFixed(1)` receives here). -/
def toFixed1 (q : ℚ) : String :=
  let n : ℤ := round (q * 10)
  toString (n / 10) ++ "." ++ toString (n % 10)

/-- The `unreadRatio > 0.3` test of `generateProductivityInsights` under
JavaScript float semantics: `unread / total` is `NaN` (not `> 0.3`) when
both are zero and `Infinity` (`> 0.3`) when only `total` is zero. -/
def unreadRatioHigh (stats : EmailStats) : Bool :=
  if stats.totalEmails = 0 then
    decide (0 < stats.unreadEmails)
  else
    decide ((3 : ℚ)/10 < (stats.unreadEmails : ℚ) / (stats.totalEmails : ℚ))

/-- The percentage text of the high-unread-ratio insight, including the
`Infinity` / `NaN` renderings of the degenerate ratios. -/
def unreadRatioPercent (stats : EmailStats) : String :=
  if stats.totalEmails = 0 then
    if 0 < stats.unreadEmails then "Infinity" else "NaN"
  else
    toFixed1 ((stats.unreadEmails : ℚ) / (stats.totalEmails : ℚ) * 100)

/-- The high-unread-ratio productivity warning. -/
def unreadRatioInsight (stats : EmailStats) : EmailInsight :=
  { type := .warning
    title := "High Unread Ratio"
    description := unreadRatioPercent stats ++
      "% of your emails are unread. This might be affecting your productivity."
    action := none
    priority := .medium
    category := .productivity }

/-- `generateProductivityInsights`: the peak-hour info insight (when the
peak count is positive) and the high-unread-ratio warning. -/
def generateProductivityInsights (timeOfDay : List (Nat × Nat))
    (stats : EmailStats) : List EmailInsight :=
  (match peakEntry timeOfDay with
   | some peak =>
     if 0 < peak.2 then
       [{ type := .info
          title := "Email Peak Time Identified"
          description := "Most of your emails arrive around " ++
            timeStrOfHour peak.1 ++
            ". Consider checking email at this time for efficiency."
          action := none
          priority := .low
          category := .productivity }]
     else []
   | none => []) ++
  (if unreadRatioHigh stats then [unreadRatioInsight stats] else [])

/-- Five or more consecutive ASCII digits occur (`/[0-9]{5,}/`). -/
def hasDigitRun5 (run : Nat) : List Char → Bool
  | [] => 5 ≤ run
  | c :: rest =>
    let run' := if c.isDigit then run + 1 else 0
    if 5 ≤ run' then true else hasDigitRun5 run' rest

/-- The phishing indicator keywords of `generateSecurityInsights`. -/
def phishingKeywords : List String :=
  ["urgent", "verify account", "suspended", "click here",
   "limited time", "act now", "confirm identity"]

/-- `generateSecurityInsights`: warn when more than five messages look
suspicious (phishing keyword in subject or sender, a `.tk` / `.ml`
fragment, or a run of five digits in the sender). -/
def generateSecurityInsights (emails : List EmailMessage) : List EmailInsight :=
  let suspiciousSenders := emails.filter (fun e =>
    let fromA := strLower e.fromAddr
    let subject := strLower e.subject
    let hasSuspiciousKeywords := phishingKeywords.any (fun keyword =>
      strIncludes subject keyword || strIncludes fromA keyword)
    let hasWeirdDomain := strIncludes fromA ".tk" || strIncludes fromA ".ml" ||
      hasDigitRun5 0 fromA.toList
    hasSuspiciousKeywords || hasWeirdDomain)
  if 5 < suspiciousSenders.length then
    [{ type := .warning
       title := "Potential Security Concerns"
       description := "Found " ++ toString suspiciousSenders.length ++
         " emails that might be suspicious. Review them carefully."
       action := none
       priority := .high
       category := .security }]
  else []

/-- `calculateScores`: cleanliness, organization and productivity, each a
rounded clamped linear combination of ratios whose denominators are
floored at 1 by `Math.max(·, 1)`. -/
def calculateScores (emails : List EmailMessage) (stats : EmailStats)
    (patterns : Patterns) : Scores :=
  let unreadRatio : ℚ := (stats.unreadEmails : ℚ) / max (stats.totalEmails : ℚ) 1
  let oldEmailRatio : ℚ := (patterns.oldEmails : ℚ) / max (emails.length : ℚ) 1
  let cleanliness : ℚ := max 0 (100 - unreadRatio * 50 - oldEmailRatio * 30)
  let newsletterRatio : ℚ :=
    (patterns.unreadNewsletters : ℚ) / max (patterns.newsletters : ℚ) 1
  let duplicateRatio : ℚ :=
    (patterns.storageImpact.duplicates : ℚ) / max (emails.length : ℚ) 1
  let organization : ℚ := max 0 (100 - newsletterRatio * 40 - duplicateRatio * 20)
  let volumeScore : ℚ := min 100 (max 0 (100 - (stats.unreadEmails : ℚ) / 100))
  { cleanliness := round cleanliness
    organization := round organization
    productivity := round volumeScore }

/-- Numeric priority order used by the insight sort. -/
def priorityOrder : InsightPriority → Nat
  | .high => 3
  | .medium => 2
  | .low => 1

/-- `analyzeEmailData`: generate the four insight groups, sort by priority
(stable descending, the JavaScript comparator
`priorityOrder[b.priority] - priorityOrder[a.priority]`), keep the top
ten, and assemble the stats record and scores. -/
def analyzeEmailData (thirtyDaysAgo : Int) (dayOf : Int → String)
    (hourOf : Int → Nat) (emails : List EmailMessage) (stats : EmailStats) :
    EmailAnalysis :=
  let patterns := analyzePatterns thirtyDaysAgo emails
  let topSenders := analyzeSenders emails
  let timeAnalysis := analyzeTimePatterns dayOf hourOf emails
  let insights :=
    generateCleanupInsights thirtyDaysAgo emails stats ++
    generateOrganizationInsights topSenders patterns ++
    generateProductivityInsights timeAnalysis.2 stats ++
    generateSecurityInsights emails
  let scores := calculateScores emails stats patterns
  let sorted := insights.mergeSort (fun a b =>
    priorityOrder b.priority ≤ priorityOrder a.priority)
  { insights := sorted.take 10
    stats :=
      { topSenders := topSenders
        emailsByDayOfWeek := timeAnalysis.1
        emailsByTimeOfDay := timeAnalysis.2
        unsubscribeOpportunities := patterns.unsubscribeOpportunities
        storageImpact := patterns.storageImpact }
    score := scores }

/-! ## Auxiliary lemmas -/

lemma checkHeaders_found_eq (headers : Option (List (String × String))) :
    (checkHeaders headers).found = !(checkHeaders headers).links.isEmpty := by
  unfold checkHeaders
  cases headers with
  | none => simp
  | some hs => dsimp only; split <;> simp

lemma parseEmailContent_found_eq (doc : EmailDoc) :
    (parseEmailContent doc).found = !(parseEmailContent doc).links.isEmpty := by
  unfold parseEmailContent
  split <;> simp

lemma parseEmailContent_confidence (doc : EmailDoc) :
    (parseEmailContent doc).confidence =
      calculateConfidence (parseEmailContent doc).links doc.body := by
  unfold parseEmailContent
  split
  · simp [calculateConfidence]
  · rfl

lemma checkHeaders_confidence (headers : Option (List (String × String))) :
    (checkHeaders headers).confidence = 0 ∨
      (checkHeaders headers).confidence = 9/10 := by
  unfold checkHeaders
  cases headers with
  | none => left; rfl
  | some hs => dsimp only; split
               · right; rfl
               · left; rfl

lemma calculateConfidence_bounds (links : List String) (body : String) :
    0 ≤ calculateConfidence links body ∧ calculateConfidence links body ≤ 1 := by
  unfold calculateConfidence
  split
  · norm_num
  · dsimp only
    constructor
    · apply le_min _ zero_le_one
      have h1 : (0:ℚ) ≤ (countMatches "unsubscribe".toList (strLower body).toList : ℚ) * (1/10) := by
        positivity
      have h2 : (0:ℚ) ≤
          ((links.filter (fun link => strStartsWith link "https:")).length : ℚ) /
            (links.length : ℚ) * (1/5) := by
        positivity
      have h3 : (0:ℚ) ≤ min ((countMatches "unsubscribe".toList (strLower body).toList : ℚ) * (1/10)) (3/10) :=
        le_min h1 (by norm_num)
      linarith
    · exact min_le_right _ _

lemma mem_of_mem_dedupSeen {a : String} :
    ∀ (l : List String) (seen : List String), a ∈ dedupSeen seen l → a ∈ l := by
  intro l
  induction l with
  | nil => intro seen h; simp [dedupSeen] at h
  | cons b t ih =>
    intro seen h
    unfold dedupSeen at h
    split at h
    · exact List.mem_cons_of_mem b (ih seen h)
    · rcases List.mem_cons.mp h with h | h
      · exact h ▸ List.mem_cons_self a t
      · exact List.mem_cons_of_mem b (ih (b :: seen) h)

lemma mem_of_mem_dedupFirst {a : String} {l : List String}
    (h : a ∈ dedupFirst l) : a ∈ l :=
  mem_of_mem_dedupSeen l [] h

lemma isValidUnsubscribeLink_scheme {href text : String}
    (h : isValidUnsubscribeLink href text = true) :
    (strStartsWith href "http" || strStartsWith href "mailto:") = true := by
  unfold isValidUnsubscribeLink at h
  split at h
  · exact absurd h (by simp)
  · split at h
    · exact absurd h (by simp)
    · rename_i hcond
      cases hA : strStartsWith href "http" <;>
        cases hB : strStartsWith href "mailto:" <;> simp_all

lemma anchorLink_some {a : AnchorHit} {l : String}
    (h : anchorLink a = some l) :
    isValidUnsubscribeLink l a.text = true := by
  unfold anchorLink at h
  split at h
  · exact absurd h (by simp)
  · rename_i href heq
    split at h
    · rename_i hcond
      obtain rfl : href = l := by injection h
      simp only [Bool.and_eq_true] at hcond
      exact hcond.2
    · exact absurd h (by simp)

lemma round_bounds_0_100 {q : ℚ} (h0 : 0 ≤ q) (h1 : q ≤ 100) :
    0 ≤ round q ∧ round q ≤ 100 := by
  rw [round_eq]
  refine ⟨Int.floor_nonneg.mpr (by linarith), ?_⟩
  rw [Int.floor_le_iff]
  push_cast
  linarith

lemma ratio_nonneg (a b : ℕ) : 0 ≤ (a : ℚ) / max (b : ℚ) 1 :=
  div_nonneg (Nat.cast_nonneg a)
    (le_trans zero_le_one (le_max_right _ _))

/-! ## Claim theorems -/

/-- C1: for every body (cheerio document) and every optional header map,
the `UnsubscribeInfo` returned by `extractUnsubscribeInfo` satisfies
`found = true` if and only if `links` is non-empty. -/
theorem extractUnsubscribeInfo_found_iff_links_nonempty (doc : EmailDoc)
    (headers : Option (List (String × String))) :
    (extractUnsubscribeInfo doc headers).found = true ↔
      (extractUnsubscribeInfo doc headers).links ≠ [] := by
  unfold extractUnsubscribeInfo
  dsimp only
  split
  · rename_i hfound
    rw [checkHeaders_found_eq] at hfound ⊢
    simp_all
  · split
    · rename_i hfound
      rw [parseEmailContent_found_eq] at hfound ⊢
      simp_all
    · simp

/-- C2 counterexample: a message whose headers carry the `List-Unsubscribe`
value `"foo"` (no bracket token, so no retained link) and whose body
`<a href="https://a.com/unsubscribe">unsubscribe</a>` contains an
unsubscribe link. The claim predicts `method = header`; the code falls
through to content parsing and returns `method = link`. -/
theorem extractUnsubscribeInfo_header_claim_false :
    lookupHeader [("List-Unsubscribe", "foo")] "List-Unsubscribe" = some "foo" ∧
    (extractUnsubscribeInfo
      ⟨"<a href=https://a.com/unsubscribe>unsubscribe</a>",
       [⟨some "https://a.com/unsubscribe", "unsubscribe"⟩], []⟩
      (some [("List-Unsubscribe", "foo")])).found = true ∧
    (extractUnsubscribeInfo
      ⟨"<a href=https://a.com/unsubscribe>unsubscribe</a>",
       [⟨some "https://a.com/unsubscribe", "unsubscribe"⟩], []⟩
      (some [("List-Unsubscribe", "foo")])).method ≠ UMethod.header := by
  refine ⟨rfl, by decide, by decide⟩

/-- C2 (amended): when the `List-Unsubscribe` header value is truthy AND
yields at least one bracket-delimited token starting with `http` or
`mailto:`, the result comes from the header check alone — content parsing
is skipped: `found = true`, `method = header`, `confidence = 0.9`, and
`links` are exactly the retained bracket tokens of the header value. -/
theorem extractUnsubscribeInfo_header_precedence (doc : EmailDoc)
    (hs : List (String × String)) (v : String)
    (hv : jsOr (lookupHeader hs "list-unsubscribe")
      (lookupHeader hs "List-Unsubscribe") = some v)
    (hne : extractLinksFromHeader v ≠ []) :
    extractUnsubscribeInfo doc (some hs) =
      ⟨true, extractLinksFromHeader v, .header, 9/10⟩ := by
  have hv' : v.isEmpty = false := by
    rw [Bool.eq_false_iff]
    intro hempty
    rw [String.isEmpty_iff] at hempty
    subst hempty
    exact hne rfl
  have hck : checkHeaders (some hs) = ⟨true, extractLinksFromHeader v, .header, 9/10⟩ := by
    unfold checkHeaders
    dsimp only
    rw [hv]
    simp only [jsTruthy, hv', Bool.not_false, if_true, Option.getD_some]
    simp [hne]
  unfold extractUnsubscribeInfo
  rw [hck]
  simp

/-- C2 witness: a concrete header map with one valid bracket token; the
result is the header-derived record for any body. -/
theorem extractUnsubscribeInfo_header_precedence_witness :
    extractUnsubscribeInfo ⟨"", [], []⟩
      (some [("List-Unsubscribe", "<https://x.com/u>")]) =
      ⟨true, ["https://x.com/u"], .header, 9/10⟩ := by
  have h := extractUnsubscribeInfo_header_precedence ⟨"", [], []⟩
    [("List-Unsubscribe", "<https://x.com/u>")] "<https://x.com/u>"
    (by decide) (by decide)
  rw [h]
  simp only [UnsubscribeInfo.mk.injEq, true_and, and_true]
  decide

/-- C3: `performUnsubscribe` never throws — it is a total function of the
info and the HTTP behaviour — and: with `found = false` or no links it
fails with the no-method message; a first link with a `mailto:` prefix is
never executed and fails with the target surfaced in the message;
otherwise the HTTP GET succeeds exactly for a status in `[200, 400)`,
any other status fails with the status code in the message, and a network
error is caught and reported as failure. -/
theorem performUnsubscribe_cases (http : String → Except String Nat)
    (info : UnsubscribeInfo) :
    ((info.found = false ∨ info.links = []) →
      performUnsubscribe http info = ⟨false, "No unsubscribe method found"⟩) ∧
    (∀ l ls, info.found = true → info.links = l :: ls →
      strStartsWith l "mailto:" = true →
      performUnsubscribe http info =
        ⟨false, "Email-based unsubscribe requires manual action: " ++ l⟩) ∧
    (∀ l ls s, info.found = true → info.links = l :: ls →
      strStartsWith l "mailto:" = false → http l = .ok s →
      performUnsubscribe http info =
        (if 200 ≤ s ∧ s < 400 then ⟨true, "Successfully unsubscribed"⟩
         else ⟨false, "Unsubscribe request returned status " ++ toString s⟩)) ∧
    (∀ l ls e, info.found = true → info.links = l :: ls →
      strStartsWith l "mailto:" = false → http l = .error e →
      performUnsubscribe http info =
        ⟨false, "Failed to process unsubscribe request"⟩) := by
  refine ⟨?_, ?_, ?_, ?_⟩
  · intro h
    unfold performUnsubscribe
    rcases h with h | h <;> simp [h]
  · intro l ls hf hl hm
    unfold performUnsubscribe
    simp [hf, hl, hm]
  · intro l ls s hf hl hm hs
    unfold performUnsubscribe
    simp only [hf, hl, hm, hs, List.headD_cons, List.isEmpty_cons, Bool.not_true,
      Bool.false_or, Bool.false_eq_true, if_false, if_neg]
    by_cases hr : 200 ≤ s ∧ s < 400
    · rw [if_pos (by simp [hr.1, hr.2]), if_pos hr]
    · rw [if_neg (by simpa using hr), if_neg hr]
  · intro l ls e hf hl hm he
    unfold performUnsubscribe
    simp [hf, hl, hm, he]

/-- C3 witness: concrete calls in the mailto, bad-status and no-method
cases. -/
theorem performUnsubscribe_cases_witness :
    performUnsubscribe (fun _ => .ok 200)
      ⟨true, ["mailto:a@b.c"], .header, 9/10⟩ =
      ⟨false, "Email-based unsubscribe requires manual action: mailto:a@b.c"⟩ ∧
    performUnsubscribe (fun _ => .ok 500)
      ⟨true, ["https://x.com/u"], .link, 1/2⟩ =
      ⟨false, "Unsubscribe request returned status 500"⟩ ∧
    performUnsubscribe (fun _ => .error "timeout")
      ⟨false, [], .link, 0⟩ =
      ⟨false, "No unsubscribe method found"⟩ := by
  refine ⟨?_, ?_, ?_⟩
  · exact (performUnsubscribe_cases (fun _ => .ok 200)
      ⟨true, ["mailto:a@b.c"], .header, 9/10⟩).2.1 "mailto:a@b.c" [] rfl rfl
      (by decide)
  · have h := (performUnsubscribe_cases (fun _ => .ok 500)
      ⟨true, ["https://x.com/u"], .link, 1/2⟩).2.2.1 "https://x.com/u" [] 500 rfl
      rfl (by decide) rfl
    rw [h]
    rw [if_neg (by omega)]
    decide
  · exact (performUnsubscribe_cases (fun _ => .error "timeout")
      ⟨false, [], .link, 0⟩).1 (Or.inl rfl)

/-- C4: in a three-provider chain whose providers are all available, whose
first two always throw, and whose third is the local provider (named
"Local AI") and always succeeds, a fresh `SmartAIProvider` starts at
provider 0, and every call to `generateInsights` / `summarizeEmails` /
`categorizeEmail` — from any reachable `currentProvider` — returns the
local provider's result and leaves `currentProvider` at the local
provider. -/
theorem executeWithFallback_falls_to_local {α : Type}
    (p0 p1 p2 : Provider α)
    (h0a : p0.available = true) (h1a : p1.available = true)
    (h2a : p2.available = true)
    (h0n : p0.name ≠ "Local AI") (h1n : p1.name ≠ "Local AI")
    (h2n : p2.name = "Local AI")
    (h0 : ∀ m x, ∃ e, p0.run m x = .error e)
    (h1 : ∀ m x, ∃ e, p1.run m x = .error e)
    (h2 : ∀ m x, ∃ r, p2.run m x = .ok r) :
    (initSmartState [p0, p1, p2]).current = some 0 ∧
    ∀ (m : AIMethod) (x : α) (i : Nat), i < 3 →
      ∃ r, p2.run m x = .ok r ∧
        executeWithFallback m x ⟨[p0, p1, p2], some i⟩ =
          (.ok r, ⟨[p0, p1, p2], some 2⟩) := by
  have hb0 : (p0.name == "Local AI") = false := beq_eq_false_iff_ne.mpr h0n
  have hb1 : (p1.name == "Local AI") = false := beq_eq_false_iff_ne.mpr h1n
  have hb2 : (p2.name == "Local AI") = true := beq_iff_eq.mpr h2n
  constructor
  · simp [initSmartState, getNextAvailableProvider, findAvailIdx, h0a]
  · intro m x i hi
    obtain ⟨e0, he0⟩ := h0 m x
    obtain ⟨e1, he1⟩ := h1 m x
    obtain ⟨r, hr⟩ := h2 m x
    refine ⟨r, hr, ?_⟩
    interval_cases i <;>
      simp [executeWithFallback, executeFallbackProvider, executeLocalFallback,
        getNextAvailableProvider, findAvailIdx, findNameIdx,
        he0, he1, hr, h0a, h1a, h2a, hb0, hb1, hb2]

/-- C4 witness: a concrete chain (two throwing providers and a succeeding
local one). -/
theorem executeWithFallback_falls_to_local_witness :
    executeWithFallback .generateInsights ()
      ⟨[⟨"Google Gemini", true, fun _ _ => .error "Gemini API error"⟩,
        ⟨"HuggingFace", true, fun _ _ => .error "HF API error"⟩,
        ⟨"Local AI", true, fun _ _ => .ok "local insights"⟩], some 0⟩ =
      (.ok "local insights",
       ⟨[⟨"Google Gemini", true, fun _ _ => .error "Gemini API error"⟩,
         ⟨"HuggingFace", true, fun _ _ => .error "HF API error"⟩,
         ⟨"Local AI", true, fun _ _ => .ok "local insights"⟩], some 2⟩) := by
  obtain ⟨r, hr, heq⟩ :=
    (executeWithFallback_falls_to_local
      (α := Unit)
      ⟨"Google Gemini", true, fun _ _ => .error "Gemini API error"⟩
      ⟨"HuggingFace", true, fun _ _ => .error "HF API error"⟩
      ⟨"Local AI", true, fun _ _ => .ok "local insights"⟩
      rfl rfl rfl (by decide) (by decide) rfl
      (fun m x => ⟨"Gemini API error", rfl⟩)
      (fun m x => ⟨"HF API error", rfl⟩)
      (fun m x => ⟨"local insights", rfl⟩)).2
      .generateInsights () 0 (by omega)
  have hr' : "local insights" = r := by
    simpa using hr
  rw [← hr'] at heq
  exact heq

/-- C5: when the content parse of a body yields at least one candidate
link, the confidence returned by `extractUnsubscribeInfo` equals
`min(1, 0.5 + min(0.1 · occurrences of "unsubscribe" in the lowercased
body, 0.3) + 0.2 · fraction of the deduplicated links using the https
scheme)`; and for every input whatsoever the returned confidence lies in
`[0, 1]`. -/
theorem extractUnsubscribeInfo_confidence_formula_and_bounds :
    (∀ doc : EmailDoc, (parseEmailContent doc).links ≠ [] →
      (extractUnsubscribeInfo doc none).confidence =
        min 1 (1/2 +
          min ((1/10) * (countMatches "unsubscribe".toList (strLower doc.body).toList : ℚ))
            (3/10) +
          (1/5) * (((parseEmailContent doc).links.filter
              (fun link => strStartsWith link "https:")).length : ℚ) /
            ((parseEmailContent doc).links.length : ℚ))) ∧
    (∀ (doc : EmailDoc) (headers : Option (List (String × String))),
      0 ≤ (extractUnsubscribeInfo doc headers).confidence ∧
        (extractUnsubscribeInfo doc headers).confidence ≤ 1) := by
  constructor
  · intro doc hne
    have hfound : (parseEmailContent doc).found = true := by
      rw [parseEmailContent_found_eq]
      simpa using hne
    have hres : extractUnsubscribeInfo doc none = parseEmailContent doc := by
      unfold extractUnsubscribeInfo checkHeaders
      simp [hfound]
    rw [hres, parseEmailContent_confidence]
    unfold calculateConfidence
    rw [if_neg (by simpa using hne)]
    dsimp only
    rw [min_comm]
    congr 1
    rw [mul_comm]
    ring
  · intro doc headers
    unfold extractUnsubscribeInfo
    dsimp only
    split
    · rcases checkHeaders_confidence headers with h | h <;> rw [h] <;> norm_num
    · split
      · rw [parseEmailContent_confidence]
        exact calculateConfidence_bounds _ _
      · norm_num

/-- C5 witness: a body with two occurrences of "unsubscribe" and a single
https link scores `min(1, 0.5 + 0.2 + 0.2) = 0.9`. -/
theorem extractUnsubscribeInfo_confidence_witness :
    (parseEmailContent
      ⟨"<a href=https://a.com/unsubscribe>unsubscribe</a>",
       [⟨some "https://a.com/unsubscribe", "unsubscribe"⟩], []⟩).links ≠ [] ∧
    (extractUnsubscribeInfo
      ⟨"<a href=https://a.com/unsubscribe>unsubscribe</a>",
       [⟨some "https://a.com/unsubscribe", "unsubscribe"⟩], []⟩ none).confidence =
      9/10 := by
  constructor
  · decide
  · have h := extractUnsubscribeInfo_confidence_formula_and_bounds.1
      ⟨"<a href=https://a.com/unsubscribe>unsubscribe</a>",
       [⟨some "https://a.com/unsubscribe", "unsubscribe"⟩], []⟩ (by decide)
    rw [h]
    have hcount : countMatches "unsubscribe".toList
        (strLower "<a href=https://a.com/unsubscribe>unsubscribe</a>").toList = 2 := by
      decide
    have hlinks : (parseEmailContent
        ⟨"<a href=https://a.com/unsubscribe>unsubscribe</a>",
         [⟨some "https://a.com/unsubscribe", "unsubscribe"⟩], []⟩).links =
        ["https://a.com/unsubscribe"] := by
      decide
    rw [hcount, hlinks]
    have hfil : List.filter (fun link => strStartsWith link "https:")
        ["https://a.com/unsubscribe"] = ["https://a.com/unsubscribe"] := by
      decide
    rw [hfil]
    norm_num

/-- C6: for every message list and stats record, the scores returned by
the analysis are `cleanliness = round(max(0, 100 − 50·unreadRatio −
30·oldEmailRatio))`, `organization = round(max(0, 100 −
40·unreadNewsletterRatio − 20·duplicateRatio))` and `productivity =
round(min(100, max(0, 100 − unreadEmails/100)))`, every ratio denominator
floored at 1; each score lies in `[0, 100]`; and with `totalEmails = 1000`,
`unreadEmails = 600` and no old emails the cleanliness score is 70. -/
theorem analyzeEmailData_scores (t : Int) (dayOf : Int → String)
    (hourOf : Int → Nat) (emails : List EmailMessage) (stats : EmailStats) :
    ((analyzeEmailData t dayOf hourOf emails stats).score.cleanliness =
      round (max 0 (100 -
        50 * ((stats.unreadEmails : ℚ) / max (stats.totalEmails : ℚ) 1) -
        30 * (((analyzePatterns t emails).oldEmails : ℚ) /
          max (emails.length : ℚ) 1))) ∧
     (analyzeEmailData t dayOf hourOf emails stats).score.organization =
      round (max 0 (100 -
        40 * (((analyzePatterns t emails).unreadNewsletters : ℚ) /
          max ((analyzePatterns t emails).newsletters : ℚ) 1) -
        20 * (((analyzePatterns t emails).storageImpact.duplicates : ℚ) /
          max (emails.length : ℚ) 1))) ∧
     (analyzeEmailData t dayOf hourOf emails stats).score.productivity =
      round (min 100 (max 0 (100 - (stats.unreadEmails : ℚ) / 100)))) ∧
    ((0 ≤ (analyzeEmailData t dayOf hourOf emails stats).score.cleanliness ∧
      (analyzeEmailData t dayOf hourOf emails stats).score.cleanliness ≤ 100) ∧
     (0 ≤ (analyzeEmailData t dayOf hourOf emails stats).score.organization ∧
      (analyzeEmailData t dayOf hourOf emails stats).score.organization ≤ 100) ∧
     (0 ≤ (analyzeEmailData t dayOf hourOf emails stats).score.productivity ∧
      (analyzeEmailData t dayOf hourOf emails stats).score.productivity ≤ 100)) ∧
    (analyzeEmailData t dayOf hourOf [] ⟨1000, 600, 200, 0, 0⟩).score.cleanliness
      = 70 := by
  have hsc : ∀ (es : List EmailMessage) (st : EmailStats),
      (analyzeEmailData t dayOf hourOf es st).score =
        calculateScores es st (analyzePatterns t es) := fun _ _ => rfl
  have hur := ratio_nonneg stats.unreadEmails stats.totalEmails
  have hor := ratio_nonneg (analyzePatterns t emails).oldEmails emails.length
  have hnr := ratio_nonneg (analyzePatterns t emails).unreadNewsletters
    (analyzePatterns t emails).newsletters
  have hdr := ratio_nonneg (analyzePatterns t emails).storageImpact.duplicates
    emails.length
  refine ⟨⟨?_, ?_, ?_⟩, ⟨?_, ?_, ?_⟩, ?_⟩
  · rw [hsc]
    unfold calculateScores
    dsimp only
    congr 1
    congr 1
    ring
  · rw [hsc]
    unfold calculateScores
    dsimp only
    congr 1
    congr 1
    ring
  · rw [hsc]
    unfold calculateScores
    rfl
  · rw [hsc]
    unfold calculateScores
    dsimp only
    exact round_bounds_0_100 (le_max_left _ _)
      (max_le (by norm_num) (by linarith))
  · rw [hsc]
    unfold calculateScores
    dsimp only
    exact round_bounds_0_100 (le_max_left _ _)
      (max_le (by norm_num) (by linarith))
  · rw [hsc]
    unfold calculateScores
    dsimp only
    exact round_bounds_0_100
      (le_min (by norm_num) (le_max_left _ _))
      (min_le_left _ _)
  · rw [hsc]
    unfold calculateScores
    dsimp only
    have hp : analyzePatterns t [] = ⟨0, 0, 0, 0, ⟨0, 0, 0⟩⟩ := rfl
    rw [hp]
    have hq : max (0:ℚ) (100 - ((600:ℕ) : ℚ) / max ((1000:ℕ) : ℚ) 1 * 50 -
        ((0:ℕ) : ℚ) / max (([] : List EmailMessage).length : ℚ) 1 * 30) = 70 := by
      push_cast
      rw [max_eq_left (by norm_num : (1:ℚ) ≤ 1000)]
      norm_num
    rw [hq]
    simp

/-- C7 counterexample: for stats `totalEmails = 1000, unreadEmails = 600,
newsletters = 200`, `generateCleanupInsights` produces no insight at all —
the high-priority unread-count insight requires `unreadEmails > 1000`, and
600 is not greater than 1000. -/
theorem generateCleanupInsights_at_600_unread_empty :
    generateCleanupInsights 0 [] ⟨1000, 600, 200, 0, 0⟩ = [] := by
  rfl

/-- C7 (amended): for stats `totalEmails = 1000, unreadEmails = 600,
newsletters = 200`, the high-priority unread insight is absent
(`generateCleanupInsights` is empty, since 600 ≤ 1000), while the analysis
does include the productivity warning because `unreadRatio = 0.6 > 0.3`. -/
theorem analyzeEmailData_unread_scenario (t : Int) (dayOf : Int → String)
    (hourOf : Int → Nat) :
    generateCleanupInsights t [] ⟨1000, 600, 200, 0, 0⟩ = [] ∧
    (analyzeEmailData t dayOf hourOf [] ⟨1000, 600, 200, 0, 0⟩).insights =
      [unreadRatioInsight ⟨1000, 600, 200, 0, 0⟩] := by
  have hhigh : unreadRatioHigh ⟨1000, 600, 200, 0, 0⟩ = true := by
    unfold unreadRatioHigh
    rw [if_neg (by norm_num)]
    rw [decide_eq_true_eq]
    push_cast
    norm_num
  have hprod : generateProductivityInsights
      (analyzeTimePatterns dayOf hourOf []).2 ⟨1000, 600, 200, 0, 0⟩ =
      [unreadRatioInsight ⟨1000, 600, 200, 0, 0⟩] := by
    unfold generateProductivityInsights
    rw [hhigh]
    have hpeak : peakEntry (analyzeTimePatterns dayOf hourOf []).2 =
        some (23, 0) := rfl
    rw [hpeak]
    simp
  have hsend : analyzeSenders [] = [] := by
    unfold analyzeSenders
    simp [List.mergeSort_nil]
  constructor
  · rfl
  · unfold analyzeEmailData
    dsimp only
    rw [hprod, hsend]
    have hclean : generateCleanupInsights t [] ⟨1000, 600, 200, 0, 0⟩ = [] := rfl
    rw [hclean]
    have horg : generateOrganizationInsights [] (analyzePatterns t []) = [] := rfl
    rw [horg]
    have hsec : generateSecurityInsights [] = [] := rfl
    rw [hsec]
    simp [List.mergeSort_singleton]

/-- C8 counterexample: a message whose sender contains the term
"marketing" (a term of the fixed newsletter list). `detectNewsletter`
classifies it as a newsletter, but the local fallback's
`categorizeEmailSync` — whose newsletter rule only checks
newsletter/noreply/no-reply in the sender, newsletter/digest in the
subject, and the unsubscribe header — returns "personal". -/
theorem categorizeEmailSync_marketing_not_newsletter :
    strIncludes (strLower "marketing@example.com") "marketing" = true ∧
    detectNewsletter "hello" "marketing@example.com" none none = true ∧
    categorizeEmailSync
      ⟨some "hello", some "marketing@example.com", some "", none⟩ = "personal" ∧
    categorizeEmailSync
      ⟨some "hello", some "marketing@example.com", some "", none⟩ ≠ "newsletter" := by
  refine ⟨by decide, by decide, by decide, by decide⟩

/-- C8 (amended): `detectNewsletter` returns true exactly when the
lowercased `subject + " " + sender` contains a term of the fixed list
{newsletter, noreply, no-reply, donotreply, marketing, promo, unsubscribe,
digest, weekly, monthly, updates} or an unsubscribe header is present
(inclusive OR); the local fallback's `categorizeEmailSync` does NOT use
that table — it returns "newsletter" exactly when the sender contains
newsletter / noreply / no-reply, the subject contains newsletter / digest,
or `listUnsubscribe` is truthy. -/
theorem newsletter_rule_tables (subject fromA : String)
    (listUnsubscribe unsubscribe : Option String) (email : AIEmail) :
    (detectNewsletter subject fromA listUnsubscribe unsubscribe = true ↔
      (newsletterIndicators.any (fun ind =>
        strIncludes (strLower (subject ++ " " ++ fromA)) ind) = true ∨
       jsTruthy listUnsubscribe = true ∨ jsTruthy unsubscribe = true)) ∧
    (categorizeEmailSync email = "newsletter" ↔
      (strIncludes (strLower (email.fromAddr.getD "")) "newsletter" = true ∨
       strIncludes (strLower (email.fromAddr.getD "")) "noreply" = true ∨
       strIncludes (strLower (email.fromAddr.getD "")) "no-reply" = true ∨
       strIncludes (strLower (email.subject.getD "")) "newsletter" = true ∨
       strIncludes (strLower (email.subject.getD "")) "digest" = true ∨
       jsTruthy email.listUnsubscribe = true)) := by
  constructor
  · unfold detectNewsletter
    simp [Bool.or_eq_true]
  · unfold categorizeEmailSync
    dsimp only
    constructor
    · intro h
      by_cases hc :
          (strIncludes (strLower (email.fromAddr.getD "")) "newsletter" ||
           strIncludes (strLower (email.fromAddr.getD "")) "noreply" ||
           strIncludes (strLower (email.fromAddr.getD "")) "no-reply" ||
           strIncludes (strLower (email.subject.getD "")) "newsletter" ||
           strIncludes (strLower (email.subject.getD "")) "digest" ||
           jsTruthy email.listUnsubscribe) = true
      · simpa [Bool.or_eq_true, or_assoc] using hc
      · rw [if_neg hc] at h
        split_ifs at h <;> simp_all
    · intro h
      rw [if_pos (by simpa [Bool.or_eq_true, or_assoc] using h)]

/-- C9 counterexample: a body whose only unsubscribe candidate is a form
(`<form action="/unsub">...unsubscribe...</form>`). The form's `action` is
pushed into `links` without any validation, so the returned list contains
the relative URL `"/unsub"`, which starts with neither `http` nor
`mailto:`. -/
theorem extractUnsubscribeInfo_form_action_unvalidated :
    (extractUnsubscribeInfo
      ⟨"<form action=/unsub>please unsubscribe</form>", [],
       [⟨"please unsubscribe", some "/unsub"⟩]⟩ none).found = true ∧
    (extractUnsubscribeInfo
      ⟨"<form action=/unsub>please unsubscribe</form>", [],
       [⟨"please unsubscribe", some "/unsub"⟩]⟩ none).links = ["/unsub"] ∧
    (strStartsWith "/unsub" "http" || strStartsWith "/unsub" "mailto:") = false := by
  refine ⟨by decide, by decide, by decide⟩

/-- C9 (amended): every link produced by the header check starts with
`http` or `mailto:`, and so does every link of a result whose document has
no unsubscribe-matching form (anchor-scan links are validated); form
`action`s, however, are appended unchecked, so the invariant does not hold
for them. -/
theorem extractUnsubscribeInfo_links_scheme
    (doc : EmailDoc) (hs hs' : Option (List (String × String))) (l l' : String) :
    (l ∈ (checkHeaders hs').links →
      (strStartsWith l "http" || strStartsWith l "mailto:") = true) ∧
    (doc.forms.filter formMatchesUnsubscribe = [] →
      l' ∈ (extractUnsubscribeInfo doc hs).links →
      (strStartsWith l' "http" || strStartsWith l' "mailto:") = true) := by
  have hheader : ∀ (h : Option (List (String × String))) (u : String),
      u ∈ (checkHeaders h).links →
      (strStartsWith u "http" || strStartsWith u "mailto:") = true := by
    intro h u hu
    unfold checkHeaders at hu
    cases h with
    | none => simp at hu
    | some hsv =>
      dsimp only at hu
      split at hu
      · exact (List.mem_filter.mp hu).2
      · simp at hu
  refine ⟨hheader hs' l, ?_⟩
  intro hforms hmem
  unfold extractUnsubscribeInfo at hmem
  dsimp only at hmem
  split at hmem
  · exact hheader hs l' hmem
  · split at hmem
    · unfold parseEmailContent at hmem
      split at hmem
      · simp at hmem
      · dsimp only at hmem
        rw [hforms] at hmem
        simp only [List.isEmpty_nil, Bool.not_true, Bool.false_eq_true,
          if_false] at hmem
        have hmem' := mem_of_mem_dedupFirst hmem
        obtain ⟨a, _, ha⟩ := List.mem_filterMap.mp hmem'
        exact isValidUnsubscribeLink_scheme (anchorLink_some ha)
    · simp at hmem

/-- C9 witness: a concrete header-derived link and a concrete
anchor-derived link, both with valid prefixes. -/
theorem extractUnsubscribeInfo_links_scheme_witness :
    ("https://x.com/u" ∈
      (checkHeaders (some [("List-Unsubscribe", "<https://x.com/u>")])).links ∧
     (strStartsWith "https://x.com/u" "http" ||
      strStartsWith "https://x.com/u" "mailto:") = true) ∧
    ((⟨"<a href=https://a.com/unsubscribe>x</a>",
       [⟨some "https://a.com/unsubscribe", "unsubscribe"⟩], []⟩ : EmailDoc).forms.filter
        formMatchesUnsubscribe = [] ∧
     "https://a.com/unsubscribe" ∈
      (extractUnsubscribeInfo
        ⟨"<a href=https://a.com/unsubscribe>x</a>",
         [⟨some "https://a.com/unsubscribe", "unsubscribe"⟩], []⟩ none).links ∧
     (strStartsWith "https://a.com/unsubscribe" "http" ||
      strStartsWith "https://a.com/unsubscribe" "mailto:") = true) := by
  constructor
  · refine ⟨by decide, ?_⟩
    exact (extractUnsubscribeInfo_links_scheme
      ⟨"", [], []⟩ none (some [("List-Unsubscribe", "<https://x.com/u>")])
      "https://x.com/u" "").1 (by decide)
  · refine ⟨by decide, by decide, ?_⟩
    exact (extractUnsubscribeInfo_links_scheme
      ⟨"<a href=https://a.com/unsubscribe>x</a>",
       [⟨some "https://a.com/unsubscribe", "unsubscribe"⟩], []⟩ none none
      "" "https://a.com/unsubscribe").2 (by decide) (by decide)

/-- C10: on the empty message list with all-zero stats the analysis
completes (every denominator is floored at 1, the degenerate `0/0` unread
ratio fails the `> 0.3` test, and the peak-hour reduce runs on the 24
initialised buckets) and returns an empty insights list with scores
`cleanliness = organization = productivity = 100`. -/
theorem analyzeEmailData_empty_input (t : Int) (dayOf : Int → String)
    (hourOf : Int → Nat) :
    (analyzeEmailData t dayOf hourOf [] ⟨0, 0, 0, 0, 0⟩).insights = [] ∧
    (analyzeEmailData t dayOf hourOf [] ⟨0, 0, 0, 0, 0⟩).score =
      ⟨100, 100, 100⟩ := by
  have hsend : analyzeSenders [] = [] := by
    unfold analyzeSenders
    simp [List.mergeSort_nil]
  constructor
  · unfold analyzeEmailData
    dsimp only
    rw [hsend]
    have hclean : generateCleanupInsights t [] ⟨0, 0, 0, 0, 0⟩ = [] := rfl
    have horg : generateOrganizationInsights [] (analyzePatterns t []) = [] := rfl
    have hprod : generateProductivityInsights
        (analyzeTimePatterns dayOf hourOf []).2 ⟨0, 0, 0, 0, 0⟩ = [] := rfl
    have hsec : generateSecurityInsights [] = [] := rfl
    rw [hclean, horg, hprod, hsec]
    simp [List.mergeSort_nil]
  · show calculateScores [] ⟨0, 0, 0, 0, 0⟩ (analyzePatterns t []) = ⟨100, 100, 100⟩
    have hp : analyzePatterns t [] = ⟨0, 0, 0, 0, ⟨0, 0, 0⟩⟩ := rfl
    rw [hp]
    unfold calculateScores
    dsimp only
    congr 1
    · simp only [Nat.cast_zero, List.length_nil, zero_div, zero_mul, sub_zero]
      rw [show (0:ℚ) ⊔ (100:ℚ) = 100 from max_eq_right (by norm_num)]
      simp
    · simp only [Nat.cast_zero, List.length_nil, zero_div, zero_mul, sub_zero]
      rw [show (0:ℚ) ⊔ (100:ℚ) = 100 from max_eq_right (by norm_num)]
      simp
    · simp only [Nat.cast_zero, zero_div, sub_zero]
      rw [show (0:ℚ) ⊔ (100:ℚ) = 100 from max_eq_right (by norm_num), min_self]
      simp

end EmailCleaner

